import Mathlib

/-!
Verification of the Cymusic provider (plugin) subsystem.

This file gives a shallow embedding, in Lean, of the plugin loader
(`src/plugins/core/PluginLoader.ts`), the plugin registry
(`src/plugins/core/PluginRegistry.ts`), the plugin host
(`src/plugins/core/PluginManager.ts`), the legacy helper manager
(`src/helpers/PluginManager.ts`) and the aggregated search helper
(`helpers/searchAll.ts`), together with theorems about the behaviour of
those functions.

Modelling conventions:
* JavaScript machine behaviour is modelled with plain Lean data:
  optional/undefined values become `Option`, thrown exceptions become
  `Except`, and `async` functions that never reject become total
  functions.
* JavaScript truthiness on optional strings (`undefined`, `null` and
  `""` are falsy) is captured by `jstruthy`.
* The execution of untrusted provider source text (the `Function`
  constructor / `eval`, module-and-exports plumbing and the mock
  `require`) cannot be embedded; a piece of source text is represented
  by its evaluation outcome: either a thrown error or the produced
  plugin object.
* `nanoid()` is modelled as a fresh-identifier generator driven by a
  counter threaded through the registry state.
-/

namespace Cymusic

/-- JS truthiness of a possibly-absent string: `undefined`/`null`/`""` are falsy. -/
def jstruthy : Option String → Bool
  | some s => !(s == "")
  | none => false

/-- JS `a || b` on possibly-absent strings. -/
def jsOr (a b : Option String) : Option String :=
  if jstruthy a then a else b

/-- `ICommon.SupportMediaType` (`'music' | 'album' | 'artist' | 'sheet' | 'lyric'`). -/
inductive SupportMediaType where
  | music
  | album
  | artist
  | sheet
  | lyric
deriving DecidableEq

/-- `SearchAllType` in `helpers/searchAll.ts`: `'songs' | 'artists'`. -/
inductive SearchAllType where
  | songs
  | artists
deriving DecidableEq

/-- `mapSearchType` in `helpers/searchAll.ts`. The `return 'music'` default of the
source is unreachable because the union type has exactly these two cases. -/
def mapSearchType : SearchAllType → SupportMediaType
  | .songs => .music
  | .artists => .artist

/-- A raw media item as returned by a provider's `search` (music or artist
item). Every field except `id` is optional; `String(item.id)` in the source is
the identity on the string-typed `id` modelled here. The provider-reported
`platform` field is carried but never trusted. -/
structure RawMediaItem where
  id : String
  title : Option String := none
  name : Option String := none
  artist : Option String := none
  artwork : Option String := none
  avatar : Option String := none
  url : Option String := none
  platform : Option String := none
deriving DecidableEq

/-- `IPlugin.ISearchResult`: `{ data: item[], isEnd?: bool }`. An absent or
empty `data` array behaves identically in all the code modelled here, so
`data` is a plain list. -/
structure ISearchResult where
  data : List RawMediaItem
  isEnd : Option Bool := none

/-- The type of a provider's `search` method: it may throw (modelled by
`Except.error`). -/
def SearchFn := String → Nat → SupportMediaType → Except String ISearchResult

/-- The `Track` built by `searchAll` (react-native-track-player track, the
fields assigned in `helpers/searchAll.ts`). `isArtist` is only assigned for
artist searches; the unassigned (undefined) case is modelled as `false`. -/
structure Track where
  id : String
  title : Option String
  artist : Option String
  artwork : Option String
  url : String
  platform : String
  isArtist : Bool
deriving DecidableEq

/-- `PluginUserConfig` of `src/helpers/PluginManager.ts`:
`{ userVariables?: Record<string,string>, isEnabled?: boolean }`.
The record is modelled as an insertion-ordered association list. -/
structure PluginUserConfig where
  userVariables : Option (List (String × String)) := none
  isEnabled : Option Bool := none
deriving DecidableEq

/-- A `ManagedPlugin` of `src/helpers/PluginManager.ts` as consumed by
`searchAll`: `plugin.instance?.search` collapses the optional `instance` and
its optional `search` method into one optional function. -/
structure ManagedPlugin where
  platform : String
  search : Option SearchFn
  userConfig : PluginUserConfig

/-- The track construction inside `searchAll` (`helpers/searchAll.ts`):
`{ id: String(item.id), title: item.title || item.name, artist: item.artist
|| item.name, artwork: item.artwork || item.avatar, url: item.url || '',
platform: plugin.platform }`, with `isArtist = true` for artist searches. -/
def mapToTrack (ty : SupportMediaType) (platform : String) (item : RawMediaItem) : Track :=
  { id := item.id
    title := jsOr item.title item.name
    artist := jsOr item.artist item.name
    artwork := jsOr item.artwork item.avatar
    url := if jstruthy item.url then item.url.getD "" else ""
    platform := platform
    isArtist := ty == SupportMediaType.artist }

/-- One iteration of the `for (const plugin of activePlugins)` loop of
`searchAll`: the plugin is consulted only if `plugin.instance?.search` exists
and `plugin.userConfig.isEnabled !== false`; a thrown search is caught and
ignored; `hasMoreOverall` is set only when the result has data and reports
`isEnd === false`. -/
def searchStep (searchText : String) (page : Nat) (ty : SupportMediaType)
    (acc : List Track × Bool) (plugin : ManagedPlugin) : List Track × Bool :=
  match plugin.search with
  | some f =>
    if plugin.userConfig.isEnabled != some false then
      match f searchText page ty with
      | .ok result =>
        if result.data.isEmpty then acc
        else
          (acc.1 ++ result.data.map (mapToTrack ty plugin.platform),
            if result.isEnd == some false then true else acc.2)
      | .error _ => acc
    else acc
  | none => acc

/-- The inline de-duplication of `searchAll`:
`aggregatedResults.filter((track, index, self) => index === self.findIndex(t
=> t.id === track.id && t.platform === track.platform))` — keep an element
exactly when its index is the first index carrying its `(id, platform)` key. -/
def dedupTracks (l : List Track) : List Track :=
  (l.enum.filter
    (fun p => l.findIdx (fun t => t.id == p.2.id && t.platform == p.2.platform) == p.1)).map
    Prod.snd

/-- Return type of `searchAll`: `{ data: Track[], hasMore: boolean }`. -/
structure SearchAllResult where
  data : List Track
  hasMore : Bool
deriving DecidableEq

/-- `searchAll` of `helpers/searchAll.ts`, over the list returned by
`pluginManager.getActivePlugins()`. The source defaults are `page = 1` and
`type = 'songs'`. The function is total: a provider whose `search` throws is
caught by the per-plugin `try`/`catch` and contributes nothing. -/
def searchAll (activePlugins : List ManagedPlugin) (searchText : String)
    (page : Nat := 1) (ty : SearchAllType := .songs) : SearchAllResult :=
  let pluginSearchType := mapSearchType ty
  let r := activePlugins.foldl (searchStep searchText page pluginSearchType) ([], false)
  { data := dedupTracks r.1, hasMore := r.2 }

/-- Whether one plugin makes `searchAll` report `hasMore`: it has a callable
`search`, is not disabled, its call succeeds with a non-empty `data` array and
it explicitly reports `isEnd === false`. -/
def contributesMore (searchText : String) (page : Nat) (ty : SupportMediaType)
    (plugin : ManagedPlugin) : Bool :=
  match plugin.search with
  | some f =>
    if plugin.userConfig.isEnabled != some false then
      match f searchText page ty with
      | .ok result => !result.data.isEmpty && result.isEnd == some false
      | .error _ => false
    else false
  | none => false

theorem searchStep_snd (q : String) (p : Nat) (ty : SupportMediaType)
    (acc : List Track × Bool) (pl : ManagedPlugin) :
    (searchStep q p ty acc pl).2 = (acc.2 || contributesMore q p ty pl) := by
  unfold searchStep contributesMore
  cases pl.search with
  | none => simp
  | some f =>
    by_cases he : pl.userConfig.isEnabled != some false
    · simp only [he, if_true]
      cases hr : f q p ty with
      | error e => simp
      | ok result =>
        by_cases hd : result.data.isEmpty
        · simp [hd]
        · by_cases hend : result.isEnd == some false
          · simp [hd, hend]
          · simp [hd, hend]
    · simp [he]

theorem foldl_searchStep_snd (q : String) (p : Nat) (ty : SupportMediaType) :
    ∀ (ps : List ManagedPlugin) (acc : List Track × Bool),
      (ps.foldl (searchStep q p ty) acc).2 = (acc.2 || ps.any (contributesMore q p ty))
  | [], acc => by simp
  | pl :: ps, acc => by
    rw [List.foldl_cons, foldl_searchStep_snd q p ty ps, searchStep_snd, List.any_cons,
      Bool.or_assoc]

theorem contributesMore_eq_true_iff (q : String) (p : Nat) (ty : SupportMediaType)
    (pl : ManagedPlugin) :
    contributesMore q p ty pl = true ↔
      ∃ f result, pl.search = some f ∧ pl.userConfig.isEnabled ≠ some false ∧
        f q p ty = .ok result ∧ result.data ≠ [] ∧ result.isEnd = some false := by
  unfold contributesMore
  cases hs : pl.search with
  | none => simp
  | some f =>
    by_cases he : pl.userConfig.isEnabled != some false
    · simp only [he, if_true]
      cases hr : f q p ty with
      | error e =>
        refine iff_of_false (by simp) ?_
        rintro ⟨f', result, hf', -, hcall, -, -⟩
        rw [Option.some_inj] at hf'
        subst hf'
        rw [hr] at hcall
        exact absurd hcall (by simp)
      | ok result =>
        constructor
        · intro h
          refine ⟨f, result, rfl, by simpa using he, hr, ?_, ?_⟩
          · have := (Bool.and_eq_true _ _).mp h
            simpa [List.isEmpty_iff] using this.1
          · have := (Bool.and_eq_true _ _).mp h
            simpa using this.2
        · rintro ⟨f', result', hf', -, hcall, hdata, hend⟩
          rw [Option.some_inj] at hf'
          subst hf'
          rw [hr] at hcall
          have : result' = result := by
            cases hcall
            rfl
          subst this
          refine (Bool.and_eq_true _ _).mpr ⟨?_, by simp [hend]⟩
          simpa [List.isEmpty_iff] using hdata
    · have he' : (pl.userConfig.isEnabled != some false) = false := by
        simpa using he
      refine iff_of_false (by simp [he']) ?_
      rintro ⟨f', result, hf', hen, -, -, -⟩
      simp only [bne_eq_false_iff_eq] at he'
      exact hen he'

/-- C2: for every aggregated search, the merged `hasMore` flag is `true` iff
at least one contributing provider — one that is not disabled, implements
`search`, and whose call returned a non-empty `data` array — explicitly
returned `isEnd === false`. A provider that omits `isEnd`, reports
`isEnd: true`, returns no data, or throws contributes nothing. -/
theorem searchAll_hasMore_iff (plugins : List ManagedPlugin) (q : String) (p : Nat)
    (ty : SearchAllType) :
    (searchAll plugins q p ty).hasMore = true ↔
      ∃ pl ∈ plugins, ∃ f result,
        pl.search = some f ∧
        pl.userConfig.isEnabled ≠ some false ∧
        f q p (mapSearchType ty) = .ok result ∧
        result.data ≠ [] ∧
        result.isEnd = some false := by
  show (plugins.foldl (searchStep q p (mapSearchType ty)) ([], false)).2 = true ↔ _
  rw [foldl_searchStep_snd]
  simp only [Bool.false_or, List.any_eq_true]
  constructor
  · rintro ⟨pl, hmem, hc⟩
    exact ⟨pl, hmem, (contributesMore_eq_true_iff q p (mapSearchType ty) pl).mp hc⟩
  · rintro ⟨pl, hmem, h⟩
    exact ⟨pl, hmem, (contributesMore_eq_true_iff q p (mapSearchType ty) pl).mpr h⟩

/-- C1: with three enabled providers where provider `"A"` returns two items
with `isEnd: false`, provider `"B"` returns no items, and provider `"C"`
throws, `searchAll` returns exactly A's two items, each stamped with
`platform := "A"` (overriding the platform the provider reported), and
`hasMore = true`. The call is total, so no exception reaches the caller. -/
theorem searchAll_three_providers :
    searchAll
      [ { platform := "A",
          search := some (fun _ _ _ => .ok
            { data :=
                [ { id := "a1", title := some "Song 1", artist := some "Artist 1",
                    platform := some "spoofed" },
                  { id := "a2", title := some "Song 2", artist := some "Artist 2",
                    platform := some "spoofed" } ],
              isEnd := some false }),
          userConfig := { isEnabled := some true } },
        { platform := "B",
          search := some (fun _ _ _ => .ok { data := [], isEnd := some true }),
          userConfig := { isEnabled := some true } },
        { platform := "C",
          search := some (fun _ _ _ => .error "provider C threw"),
          userConfig := { isEnabled := some true } } ]
      "query" 1 .songs
    = { data :=
          [ { id := "a1", title := some "Song 1", artist := some "Artist 1",
              artwork := none, url := "", platform := "A", isArtist := false },
            { id := "a2", title := some "Song 2", artist := some "Artist 2",
              artwork := none, url := "", platform := "A", isArtist := false } ],
        hasMore := true } := by
  rfl

theorem mem_dedupTracks_iff {l : List Track} {t : Track} :
    t ∈ dedupTracks l ↔
      ∃ i : Nat, l[i]? = some t ∧
        l.findIdx (fun u => u.id == t.id && u.platform == t.platform) = i := by
  unfold dedupTracks
  simp only [List.mem_map, List.mem_filter, Prod.exists]
  constructor
  · rintro ⟨i, x, ⟨hmem, hq⟩, rfl⟩
    exact ⟨i, (List.mk_mem_enum_iff_getElem?).mp hmem, by simpa using hq⟩
  · rintro ⟨i, hget, hfind⟩
    exact ⟨i, t, ⟨(List.mk_mem_enum_iff_getElem?).mpr hget, by simpa using hfind⟩, rfl⟩

theorem enumFrom_pairwise_fst_lt : ∀ (n : Nat) (l : List Track),
    (l.enumFrom n).Pairwise (fun a b => a.1 < b.1)
  | _, [] => by simp
  | n, x :: xs => by
    rw [List.enumFrom_cons]
    refine List.Pairwise.cons ?_ (enumFrom_pairwise_fst_lt (n + 1) xs)
    rintro ⟨i, b⟩ hb
    have := (List.mk_mem_enumFrom_iff_le_and_getElem?_sub).mp hb
    omega

theorem dedupTracks_key_mem {l : List Track} {t : Track} (ht : t ∈ l) :
    ∃ u ∈ dedupTracks l, u.id = t.id ∧ u.platform = t.platform := by
  have hex : ∃ x ∈ l, (x.id == t.id && x.platform == t.platform) = true :=
    ⟨t, ht, by simp⟩
  have hlt := List.findIdx_lt_length_of_exists hex
  set i := l.findIdx (fun u => u.id == t.id && u.platform == t.platform) with hi
  have hkey : (l[i].id == t.id && l[i].platform == t.platform) = true :=
    List.findIdx_getElem (w := hlt)
  have hid : l[i].id = t.id := by
    have := (Bool.and_eq_true _ _).mp hkey
    exact beq_iff_eq.mp this.1
  have hpf : l[i].platform = t.platform := by
    have := (Bool.and_eq_true _ _).mp hkey
    exact beq_iff_eq.mp this.2
  refine ⟨l[i], ?_, hid, hpf⟩
  refine mem_dedupTracks_iff.mpr ⟨i, List.getElem?_eq_getElem hlt, ?_⟩
  have hfun : (fun u : Track => u.id == l[i].id && u.platform == l[i].platform)
      = fun u : Track => u.id == t.id && u.platform == t.platform := by
    funext u
    rw [hid, hpf]
  rw [hfun, ← hi]

theorem dedupTracks_first_seen {l : List Track} {t : Track} (ht : t ∈ dedupTracks l) :
    l[l.findIdx (fun u => u.id == t.id && u.platform == t.platform)]? = some t := by
  obtain ⟨i, hget, hfind⟩ := mem_dedupTracks_iff.mp ht
  rw [hfind]
  exact hget

theorem dedupTracks_pairwise_key_ne (l : List Track) :
    (dedupTracks l).Pairwise (fun a b => ¬(a.id = b.id ∧ a.platform = b.platform)) := by
  unfold dedupTracks
  rw [List.pairwise_map]
  have hpw : (l.enum.filter
      (fun p => l.findIdx (fun t => t.id == p.2.id && t.platform == p.2.platform) == p.1)).Pairwise
      (fun a b => a.1 < b.1) :=
    List.Pairwise.filter _ (enumFrom_pairwise_fst_lt 0 l)
  refine List.Pairwise.imp_of_mem ?_ hpw
  intro a b ha hb hlt hkey
  have hqa := (List.mem_filter.mp ha).2
  have hqb := (List.mem_filter.mp hb).2
  simp only [beq_iff_eq] at hqa hqb
  have hfun : (fun t : Track => t.id == a.2.id && t.platform == a.2.platform)
      = fun t : Track => t.id == b.2.id && t.platform == b.2.platform := by
    funext u
    rw [hkey.1, hkey.2]
  rw [hfun, hqb] at hqa
  omega

/-- C3: in a merged search result, de-duplication is keyed by the pair
`(id, platform)` (the inline `filter`/`findIndex` step `dedupTracks` of
`searchAll`): (1) for any two items of the aggregated list with the same `id`
but different `platform` values — e.g. returned by two different providers —
an entry with each of the two keys is retained; (2) every retained item is
the first-seen item of the aggregate carrying its `(id, platform)` key, so
two items from the same provider with the same `id` collapse to the
first-seen one; (3) no two retained entries share a key. -/
theorem dedupTracks_by_id_and_platform (l : List Track) :
    (∀ t1 ∈ l, ∀ t2 ∈ l, t1.id = t2.id → t1.platform ≠ t2.platform →
        (∃ u ∈ dedupTracks l, u.id = t1.id ∧ u.platform = t1.platform) ∧
        (∃ u ∈ dedupTracks l, u.id = t2.id ∧ u.platform = t2.platform))
    ∧ (∀ t ∈ dedupTracks l,
        l[l.findIdx (fun u => u.id == t.id && u.platform == t.platform)]? = some t)
    ∧ (dedupTracks l).Pairwise (fun a b => ¬(a.id = b.id ∧ a.platform = b.platform)) := by
  refine ⟨?_, fun t ht => dedupTracks_first_seen ht, dedupTracks_pairwise_key_ne l⟩
  intro t1 h1 t2 h2 _ _
  exact ⟨dedupTracks_key_mem h1, dedupTracks_key_mem h2⟩

/-- Witness for C3 at a concrete aggregate: providers `"P"` and `"Q"` each
return an item with id `"x"`; both are retained after de-duplication. -/
theorem dedupTracks_by_id_and_platform_witness :
    (∃ u ∈ dedupTracks
        [ { id := "x", title := none, artist := none, artwork := none, url := "",
            platform := "P", isArtist := false },
          { id := "x", title := none, artist := none, artwork := none, url := "",
            platform := "Q", isArtist := false } ],
      u.id = "x" ∧ u.platform = "P")
    ∧ (∃ u ∈ dedupTracks
        [ { id := "x", title := none, artist := none, artwork := none, url := "",
            platform := "P", isArtist := false },
          { id := "x", title := none, artist := none, artwork := none, url := "",
            platform := "Q", isArtist := false } ],
      u.id = "x" ∧ u.platform = "Q") :=
  (dedupTracks_by_id_and_platform
      [ { id := "x", title := none, artist := none, artwork := none, url := "",
          platform := "P", isArtist := false },
        { id := "x", title := none, artist := none, artwork := none, url := "",
          platform := "Q", isArtist := false } ]).1
    { id := "x", title := none, artist := none, artwork := none, url := "",
      platform := "P", isArtist := false } (by decide)
    { id := "x", title := none, artist := none, artwork := none, url := "",
      platform := "Q", isArtist := false } (by decide)
    rfl (by decide)

/-- `PluginState` in `src/plugins/core/PluginLoader.ts`. -/
inductive PluginState where
  | loading
  | mounted
  | error
deriving DecidableEq

/-- `PluginErrorReason` in `src/plugins/core/PluginLoader.ts`:
`CannotParse = 'cannot-parse'`, `VersionNotMatch = 'version-not-match'`. -/
inductive PluginErrorReason where
  | cannotParse
  | versionNotMatch
deriving DecidableEq

/-- A declarative user-variable descriptor (`userVariables` entries of a
plugin): only the `key` field matters to the loader's defensive filter. -/
structure IUserVariable where
  key : Option String
  name : Option String := none
  hint : Option String := none
deriving DecidableEq

/-- `IMusic.IMusicItemBase` — the fields the host reads: the routing
`platform`, the provider-scoped `id`, and the optional embedded `url`. -/
structure IMusicItemBase where
  id : String
  platform : String
  url : Option String := none
deriving DecidableEq

/-- `IPlugin.IMediaSourceResult` — the `{ url }` object returned by
`getMediaSource`. -/
structure IMediaSourceResult where
  url : String
deriving DecidableEq

/-- `IAlbum.IAlbumItemBase` — only identity fields are needed here. -/
structure IAlbumItemBase where
  id : String
  platform : String
deriving DecidableEq

/-- `IPluginInterface` (`src/plugins/core/interfaces/IPluginInterface.ts`):
identity fields plus the optional capability methods modelled in this file.
A capability method may throw (`Except.error`) or return `null`
(`Option.none`); the album payload is abstracted to `Unit` since no claim
inspects it. -/
structure IPluginInterface where
  platform : String
  version : Option String := none
  author : Option String := none
  supportedSearchType : Option (List SupportMediaType) := none
  userVariables : Option (List IUserVariable) := none
  search : Option SearchFn := none
  getMediaSource : Option (IMusicItemBase → String → Except String (Option IMediaSourceResult)) := none
  getAlbumInfo : Option (IAlbumItemBase → Nat → Except String (Option Unit)) := none

/-- Split a character list at every `'.'`. -/
def splitDots : List Char → List (List Char)
  | [] => [[]]
  | c :: cs =>
    let r := splitDots cs
    if c = '.' then [] :: r
    else
      match r with
      | [] => [c] :: []
      | h :: t => (c :: h) :: t

/-- Decimal digits to a natural number. -/
def charsToNat (cs : List Char) : Nat :=
  cs.foldl (fun n c => n * 10 + (c.toNat - 48)) 0

/-- Parse a well-formed `"major.minor.patch"` semantic version into its
numeric triple. -/
def parseSemver (s : String) : Nat × Nat × Nat :=
  let parts := (splitDots s.toList).map charsToNat
  (parts.getD 0 0, parts.getD 1 0, parts.getD 2 0)

/-- The npm `semver` library's `compare(v1, v2)`: `1`, `-1` or `0` as `v1` is
greater than, less than or equal to `v2`. (In `PluginRegistry.installPlugin`
the call site passes `'>'` as the third argument, which the library treats as
its `loose` option, not as an operator.) -/
def semverCompare (a b : String) : Int :=
  let x := parseSemver a
  let y := parseSemver b
  if x.1 > y.1 then 1
  else if x.1 < y.1 then -1
  else if x.2.1 > y.2.1 then 1
  else if x.2.1 < y.2.1 then -1
  else if x.2.2 > y.2.2 then 1
  else if x.2.2 < y.2.2 then -1
  else 0

/-- The npm `semver` library's `satisfies(version, range)` restricted to the
plain `"x.y.z"` ranges this development exercises: such a range is satisfied
exactly by that version. -/
def semverSatisfies (version range : String) : Bool :=
  parseSemver version == parseSemver range

/-- A value thrown inside `PluginLoader.loadFromCode`'s `try` block: either
the structured `{ instance, state, errorReason: VersionNotMatch }` object
thrown by `validatePlugin`, or an ordinary JS error (a failed evaluation of
the source, or `new Error('Plugin must have a platform name')`), which
carries neither an `errorReason` nor an `instance`. -/
inductive LoadThrow where
  | versionNotMatch (inst : IPluginInterface)
  | jsError (msg : String)

/-- `PluginLoader.validatePlugin`: first the version-compatibility check
(`instance.version && !satisfies(DeviceInfo.getVersion(), instance.version)`,
the host app version being `hostVersion` here), then the platform-name check
(`!instance.platform`). -/
def validatePlugin (hostVersion : String) (inst : IPluginInterface) : Except LoadThrow Bool :=
  if jstruthy inst.version && !(semverSatisfies hostVersion (inst.version.getD "")) then
    .error (.versionNotMatch inst)
  else if inst.platform == "" then
    .error (.jsError "Plugin must have a platform name")
  else
    .ok true

/-- The loader's defensive filter: `userVariables` entries without a truthy
`key` are dropped; an absent `userVariables` array is left untouched. -/
def filterUserVariables (inst : IPluginInterface) : IPluginInterface :=
  match inst.userVariables with
  | some l => { inst with userVariables := some (l.filter (fun it => jstruthy it.key)) }
  | none => inst

/-- The dummy stub instance built in `loadFromCode`'s `catch` block:
`platform: ''`, `version: '0.0.0'`, a `search` returning
`{ isEnd: true, data: [] }`, and `getMediaSource`/`getAlbumInfo` returning
`null`. -/
def dummyInstance : IPluginInterface :=
  { platform := ""
    version := some "0.0.0"
    search := some (fun _ _ _ => .ok { data := [], isEnd := some true })
    getMediaSource := some (fun _ _ => .ok none)
    getAlbumInfo := some (fun _ _ => .ok none) }

/-- The record returned by `PluginLoader.loadFromCode`. The source's
`instance` field is called `inst` (`instance` is a Lean keyword). -/
structure LoadFromCodeResult where
  inst : IPluginInterface
  state : PluginState
  errorReason : Option PluginErrorReason
  hash : String
  name : String
  path : String

/-- The `try` block of `loadFromCode`: evaluate the source (modelled by its
outcome `evalOutcome`), validate, then filter user variables. -/
def loadAttempt (hostVersion : String) (evalOutcome : Except String IPluginInterface) :
    Except LoadThrow IPluginInterface :=
  match evalOutcome with
  | .error msg => .error (.jsError msg)
  | .ok inst =>
    match validatePlugin hostVersion inst with
    | .error t => .error t
    | .ok _ => .ok (filterUserVariables inst)

/-- `PluginLoader.loadFromCode`. The raw source text is represented by its
evaluation outcome; the `nanoid()` hash is supplied by the caller. In the
`catch` block, `errorReason = e?.errorReason ?? CannotParse` and
`instance = e?.instance ?? dummy`. -/
def loadFromCode (hostVersion : String) (evalOutcome : Except String IPluginInterface)
    (hash pluginPath : String) : LoadFromCodeResult :=
  match loadAttempt hostVersion evalOutcome with
  | .ok inst =>
    { inst := inst, state := .mounted, errorReason := none, hash := hash,
      name := inst.platform, path := pluginPath }
  | .error t =>
    let inst := match t with
      | .versionNotMatch i => i
      | .jsError _ => dummyInstance
    let reason := match t with
      | .versionNotMatch _ => PluginErrorReason.versionNotMatch
      | .jsError _ => PluginErrorReason.cannotParse
    { inst := inst, state := .error, errorReason := some reason, hash := hash,
      name := inst.platform, path := pluginPath }

/-- Counterexample to C4 as stated: a source yielding an object whose
`platform` is empty (hence failing structural validation) but whose declared
`version` fails the compatibility check is reported as `VersionNotMatch`,
not `CannotParse`, because `validatePlugin` checks the version first; and the
returned unit is the thrown partially-built instance (here without `search`),
not the stub. -/
theorem loadFromCode_emptyPlatform_not_cannotParse :
    ({ platform := "", version := some "2.0.0" } : IPluginInterface).platform = "" ∧
    (loadFromCode "1.0.0" (.ok { platform := "", version := some "2.0.0" }) "h0" "p0").state
      = .error ∧
    (loadFromCode "1.0.0" (.ok { platform := "", version := some "2.0.0" }) "h0" "p0").errorReason
      ≠ some .cannotParse ∧
    (loadFromCode "1.0.0" (.ok { platform := "", version := some "2.0.0" }) "h0" "p0").errorReason
      = some .versionNotMatch ∧
    (loadFromCode "1.0.0" (.ok { platform := "", version := some "2.0.0" }) "h0" "p0").inst.search
      = none := by
  refine ⟨rfl, rfl, ?_, rfl, rfl⟩
  intro h
  exact absurd h (by decide)

/-- C4 (amended): for every provider source that fails structural validation
(its evaluation throws, or yields an object with an empty `platform` string)
— provided the version-compatibility check, which `validatePlugin` applies
first, does not itself fail — `loadFromCode` returns state `Error` with
reason `CannotParse`, and the stub unit it returns has a `search` returning
`{ isEnd: true, data: [] }`. -/
theorem loadFromCode_cannotParse (hostVersion : String)
    (evalOutcome : Except String IPluginInterface) (hash path : String)
    (hfail : (∃ msg, evalOutcome = .error msg) ∨
      ∃ inst, evalOutcome = .ok inst ∧ inst.platform = "" ∧
        ¬(jstruthy inst.version = true ∧
          semverSatisfies hostVersion (inst.version.getD "") = false)) :
    (loadFromCode hostVersion evalOutcome hash path).state = .error ∧
    (loadFromCode hostVersion evalOutcome hash path).errorReason = some .cannotParse ∧
    (loadFromCode hostVersion evalOutcome hash path).inst = dummyInstance ∧
    ∀ q p ty, ∃ f, (loadFromCode hostVersion evalOutcome hash path).inst.search = some f ∧
      f q p ty = .ok { data := [], isEnd := some true } := by
  have key : loadAttempt hostVersion evalOutcome
      = .error (.jsError "Plugin must have a platform name") ∨
      ∃ msg, loadAttempt hostVersion evalOutcome = .error (.jsError msg) := by
    rcases hfail with ⟨msg, rfl⟩ | ⟨inst, rfl, hplat, hver⟩
    · exact Or.inr ⟨msg, rfl⟩
    · left
      have hcond : (jstruthy inst.version
          && !(semverSatisfies hostVersion (inst.version.getD ""))) = false := by
        cases hjs : jstruthy inst.version
        · simp
        · have hsat : semverSatisfies hostVersion (inst.version.getD "") = true := by
            by_contra hne
            exact hver ⟨hjs, by simpa using hne⟩
          simp [hsat]
      simp [loadAttempt, validatePlugin, hcond, hplat]
  have hred : loadFromCode hostVersion evalOutcome hash path
      = { inst := dummyInstance, state := .error, errorReason := some .cannotParse,
          hash := hash, name := dummyInstance.platform, path := path } := by
    rcases key with h | ⟨msg, h⟩ <;> simp [loadFromCode, h]
  refine ⟨by rw [hred], by rw [hred], by rw [hred], ?_⟩
  intro q p ty
  exact ⟨fun _ _ _ => .ok { data := [], isEnd := some true }, by rw [hred]; rfl, rfl⟩

/-- Witness for C4 (amended) at a concrete input: a source whose evaluation
throws a syntax error. -/
theorem loadFromCode_cannotParse_witness :
    (loadFromCode "1.0.0" (.error "SyntaxError") "h1" "p1").state = .error ∧
    (loadFromCode "1.0.0" (.error "SyntaxError") "h1" "p1").errorReason = some .cannotParse ∧
    (loadFromCode "1.0.0" (.error "SyntaxError") "h1" "p1").inst = dummyInstance ∧
    ∀ q p ty, ∃ f,
      (loadFromCode "1.0.0" (.error "SyntaxError") "h1" "p1").inst.search = some f ∧
      f q p ty = .ok { data := [], isEnd := some true } :=
  loadFromCode_cannotParse "1.0.0" (.error "SyntaxError") "h1" "p1"
    (Or.inl ⟨"SyntaxError", rfl⟩)

/-- `IPluginMeta` in `src/plugins/core/PluginRegistry.ts`. -/
structure IPluginMeta where
  enabled : Bool
  order : Nat
  userVariables : List (String × String)
deriving DecidableEq

/-- `IRegisteredPlugin` in `src/plugins/core/PluginRegistry.ts`. The source's
`instance` field is called `inst` (`instance` is a Lean keyword). -/
structure IRegisteredPlugin where
  inst : IPluginInterface
  state : PluginState
  hash : String
  name : String
  path : String
  meta : IPluginMeta

/-- `IInstallPluginConfig`. -/
structure IInstallPluginConfig where
  notCheckVersion : Option Bool := none
deriving DecidableEq

/-- `IInstallPluginResult`. -/
structure IInstallPluginResult where
  success : Bool
  message : Option String := none
  pluginName : Option String := none
  pluginHash : Option String := none
deriving DecidableEq

/-- The mutable fields of the `PluginRegistry` singleton, plus the counter
driving the fresh-identifier model of `nanoid()`. -/
structure PluginRegistryState where
  plugins : List IRegisteredPlugin
  builtinPlugins : List IRegisteredPlugin
  nextId : Nat

/-- `nanoid()` modelled as a deterministic fresh-identifier stream: the n-th
draw. Distinct draws are distinct strings. -/
def nanoid (n : Nat) : String :=
  "nanoid-" ++ toString n

/-- `pathConst.pluginPath`, the provider-storage directory. -/
def pathConstPluginPath : String := "plugins/"

/-- `PluginRegistry.loadPlugin`. `nanoid()` draws the next fresh id; the
`unlink` of the replaced plugin's file only touches the filesystem and is
not part of the registry state. As in the source, the new entry is pushed
first (so its `order` default reads the pre-push length) and the old entry
with the same name is then filtered out by its hash. -/
def loadPlugin (hostVersion : String) (st : PluginRegistryState)
    (evalOutcome : Except String IPluginInterface) (pluginPath : String) :
    PluginRegistryState :=
  let hash := nanoid st.nextId
  let st1 : PluginRegistryState :=
    { plugins := st.plugins, builtinPlugins := st.builtinPlugins, nextId := st.nextId + 1 }
  let lr := loadFromCode hostVersion evalOutcome hash pluginPath
  match st1.plugins.find? (fun p => p.hash == lr.hash) with
  | some _ => st1
  | none =>
    let existingPluginWithSameName := st1.plugins.find? (fun p => p.name == lr.name)
    if lr.state == PluginState.mounted then
      let newEntry : IRegisteredPlugin :=
        { inst := lr.inst, state := lr.state, hash := lr.hash, name := lr.name,
          path := lr.path,
          meta :=
            { enabled := true,
              order := match existingPluginWithSameName with
                | some ex => ex.meta.order
                | none => st1.plugins.length,
              userVariables := [] } }
      match existingPluginWithSameName with
      | some ex =>
        { plugins := (st1.plugins ++ [newEntry]).filter (fun p => !(p.hash == ex.hash)),
          builtinPlugins := st1.builtinPlugins, nextId := st1.nextId }
      | none =>
        { plugins := st1.plugins ++ [newEntry],
          builtinPlugins := st1.builtinPlugins, nextId := st1.nextId }
    else st1

/-- `PluginRegistry.installPlugin`. The `copyFile` to
`pathConst.pluginPath + nanoid() + '.js'` is reflected in the stored `path`;
the version guard `if (compare(existing, new, '>'))` tests JS truthiness of
the `semver.compare` result (the `'>'` argument is the library's `loose`
option), so it fires exactly when the two declared versions differ and
the existing one is not older — see `semverCompare`. As in the source, the
old same-named entry is removed before the new entry is pushed. -/
def installPlugin (hostVersion : String) (st : PluginRegistryState) (pluginCode : String)
    (evalOutcome : Except String IPluginInterface) (pluginPath : String)
    (config : Option IInstallPluginConfig) :
    PluginRegistryState × IInstallPluginResult :=
  if pluginCode == "" then
    (st, { success := false, message := some "Plugin code is empty" })
  else
    let hash := nanoid st.nextId
    let st1 : PluginRegistryState :=
      { plugins := st.plugins, builtinPlugins := st.builtinPlugins, nextId := st.nextId + 1 }
    let lr := loadFromCode hostVersion evalOutcome hash pluginPath
    match st1.plugins.find? (fun p => p.hash == lr.hash) with
    | some _ =>
      (st1, { success := true, message := some "Plugin is already installed",
              pluginName := some lr.name, pluginHash := some lr.hash })
    | none =>
      let existingPluginWithSameName := st1.plugins.find? (fun p => p.name == lr.name)
      if (match existingPluginWithSameName with
          | some ex =>
            !((config.bind (fun c => c.notCheckVersion)).getD false)
              && !(semverCompare (ex.inst.version.getD "0.0.0")
                    (lr.inst.version.getD "0.0.0") == 0)
          | none => false) then
        (st1, { success := false,
                message := some "A newer version of the plugin is already installed",
                pluginName := some lr.name, pluginHash := some lr.hash })
      else if lr.state == PluginState.mounted then
        let filename := nanoid st1.nextId
        let st2 : PluginRegistryState :=
          { plugins := st1.plugins, builtinPlugins := st1.builtinPlugins,
            nextId := st1.nextId + 1 }
        let afterRemove :=
          match existingPluginWithSameName with
          | some ex => st2.plugins.filter (fun p => !(p.hash == ex.hash))
          | none => st2.plugins
        let newEntry : IRegisteredPlugin :=
          { inst := lr.inst, state := lr.state, hash := lr.hash, name := lr.name,
            path := pathConstPluginPath ++ filename ++ ".js",
            meta :=
              { enabled := true,
                order := match existingPluginWithSameName with
                  | some ex => ex.meta.order
                  | none => afterRemove.length,
                userVariables := [] } }
        ({ plugins := afterRemove ++ [newEntry],
           builtinPlugins := st2.builtinPlugins, nextId := st2.nextId },
         { success := true, pluginName := some lr.name, pluginHash := some lr.hash })
      else
        (st1, { success := false, message := some "Plugin cannot be parsed" })

theorem loadFromCode_hash (hostVersion : String) (evalOutcome : Except String IPluginInterface)
    (hash path : String) : (loadFromCode hostVersion evalOutcome hash path).hash = hash := by
  unfold loadFromCode
  split <;> rfl

/-- C6: installing a provider declaring version `2.0.0` over an installed
entry with the same platform at version `3.0.0`, with the version check not
skipped, fails with "a newer version of the plugin is already installed" and
leaves the installed plugin list (in particular the `3.0.0` entry) and the
built-in list unchanged. `hfresh` states that the freshly drawn `nanoid`
differs from every stored hash. -/
theorem installPlugin_newer_version_blocks
    (hostVersion : String) (st : PluginRegistryState) (code : String)
    (evalOutcome : Except String IPluginInterface) (path : String)
    (config : Option IInstallPluginConfig)
    (hcode : code ≠ "")
    (hfresh : ∀ p ∈ st.plugins, p.hash ≠ nanoid st.nextId)
    (ex : IRegisteredPlugin)
    (hex : st.plugins.find?
        (fun p => p.name == (loadFromCode hostVersion evalOutcome (nanoid st.nextId) path).name)
        = some ex)
    (hexver : ex.inst.version = some "3.0.0")
    (hnewver : (loadFromCode hostVersion evalOutcome (nanoid st.nextId) path).inst.version
        = some "2.0.0")
    (hskip : (config.bind (fun c => c.notCheckVersion)).getD false = false) :
    (installPlugin hostVersion st code evalOutcome path config).2.success = false ∧
    (installPlugin hostVersion st code evalOutcome path config).2.message
      = some "A newer version of the plugin is already installed" ∧
    (installPlugin hostVersion st code evalOutcome path config).1.plugins = st.plugins ∧
    (installPlugin hostVersion st code evalOutcome path config).1.builtinPlugins
      = st.builtinPlugins := by
  have hfind : st.plugins.find?
      (fun p => p.hash == (loadFromCode hostVersion evalOutcome (nanoid st.nextId) path).hash)
      = none := by
    refine List.find?_eq_none.mpr ?_
    intro p hp
    rw [loadFromCode_hash]
    simpa using hfresh p hp
  have hcmp : (semverCompare "3.0.0" "2.0.0" == 0) = false := by decide
  have hmain : installPlugin hostVersion st code evalOutcome path config
      = ({ plugins := st.plugins, builtinPlugins := st.builtinPlugins,
            nextId := st.nextId + 1 },
         { success := false,
           message := some "A newer version of the plugin is already installed",
           pluginName :=
             some (loadFromCode hostVersion evalOutcome (nanoid st.nextId) path).name,
           pluginHash :=
             some (loadFromCode hostVersion evalOutcome (nanoid st.nextId) path).hash }) := by
    simp only [installPlugin, hfind, hex, hexver, hnewver, hskip]
    rw [if_neg (by simpa using hcode)]
    simp [hcmp]
  rw [hmain]
  exact ⟨rfl, rfl, rfl, rfl⟩

/-- Witness for C6 at a concrete registry: one installed entry `"pl"` at
version `3.0.0`; installing a `2.0.0` source for the same platform with no
config fails and leaves the lists unchanged. -/
theorem installPlugin_newer_version_blocks_witness :
    (installPlugin "1.0.0"
        { plugins := [{ inst := { platform := "pl", version := some "3.0.0" },
                        state := .mounted, hash := "h-old", name := "pl", path := "old.js",
                        meta := { enabled := true, order := 0, userVariables := [] } }],
          builtinPlugins := [], nextId := 7 }
        "codeX" (.ok { platform := "pl", version := some "2.0.0" }) "newpath"
        none).2.success = false ∧
    (installPlugin "1.0.0"
        { plugins := [{ inst := { platform := "pl", version := some "3.0.0" },
                        state := .mounted, hash := "h-old", name := "pl", path := "old.js",
                        meta := { enabled := true, order := 0, userVariables := [] } }],
          builtinPlugins := [], nextId := 7 }
        "codeX" (.ok { platform := "pl", version := some "2.0.0" }) "newpath"
        none).2.message = some "A newer version of the plugin is already installed" ∧
    (installPlugin "1.0.0"
        { plugins := [{ inst := { platform := "pl", version := some "3.0.0" },
                        state := .mounted, hash := "h-old", name := "pl", path := "old.js",
                        meta := { enabled := true, order := 0, userVariables := [] } }],
          builtinPlugins := [], nextId := 7 }
        "codeX" (.ok { platform := "pl", version := some "2.0.0" }) "newpath"
        none).1.plugins
      = [{ inst := { platform := "pl", version := some "3.0.0" },
           state := .mounted, hash := "h-old", name := "pl", path := "old.js",
           meta := { enabled := true, order := 0, userVariables := [] } }] ∧
    (installPlugin "1.0.0"
        { plugins := [{ inst := { platform := "pl", version := some "3.0.0" },
                        state := .mounted, hash := "h-old", name := "pl", path := "old.js",
                        meta := { enabled := true, order := 0, userVariables := [] } }],
          builtinPlugins := [], nextId := 7 }
        "codeX" (.ok { platform := "pl", version := some "2.0.0" }) "newpath"
        none).1.builtinPlugins = [] :=
  installPlugin_newer_version_blocks "1.0.0"
    { plugins := [{ inst := { platform := "pl", version := some "3.0.0" },
                    state := .mounted, hash := "h-old", name := "pl", path := "old.js",
                    meta := { enabled := true, order := 0, userVariables := [] } }],
      builtinPlugins := [], nextId := 7 }
    "codeX" (.ok { platform := "pl", version := some "2.0.0" }) "newpath" none
    (by decide)
    (by
      intro p hp
      rcases List.mem_singleton.mp hp with rfl
      decide)
    { inst := { platform := "pl", version := some "3.0.0" },
      state := .mounted, hash := "h-old", name := "pl", path := "old.js",
      meta := { enabled := true, order := 0, userVariables := [] } }
    rfl rfl rfl rfl

/-- C5 is a code bug, demonstrated here: `loadFromCode` draws a fresh
`nanoid()` as the plugin "hash" on every load, so `installPlugin`'s
"already installed" check (`find(p => p.hash === hash)`) can never match.
Installing the same source text with the same path twice therefore succeeds
both times, but the second call returns no "already installed" message: it
silently replaces the entry (the stored hash changes from the first draw to
the third). The registry does still hold exactly one entry named `"pl"`. -/
theorem installPlugin_double_install_replaces :
    let st0 : PluginRegistryState := { plugins := [], builtinPlugins := [], nextId := 0 }
    let inst : IPluginInterface := { platform := "pl", version := some "1.0.0" }
    let step1 := installPlugin "1.0.0" st0 "codeA" (.ok inst) "pathA" none
    let step2 := installPlugin "1.0.0" step1.1 "codeA" (.ok inst) "pathA" none
    step1.2.success = true ∧ step1.2.message = none ∧
    step2.2.success = true ∧ step2.2.message = none ∧
    step1.1.plugins.map (fun p => p.hash) = [nanoid 0] ∧
    step2.1.plugins.map (fun p => p.hash) = [nanoid 2] ∧
    step2.1.plugins.map (fun p => p.name) = ["pl"] :=
  ⟨rfl, rfl, rfl, rfl, rfl, rfl, rfl⟩

theorem pairwise_name_eq_imp {l : List IRegisteredPlugin}
    (h : l.Pairwise (fun a b => a.name ≠ b.name)) :
    ∀ a ∈ l, ∀ b ∈ l, a.name = b.name → a = b := by
  induction l with
  | nil =>
    intro a ha
    exact absurd ha (List.not_mem_nil a)
  | cons x xs ih =>
    have hx := List.pairwise_cons.mp h
    intro a ha b hb hab
    rcases List.mem_cons.mp ha with rfl | ha'
    · rcases List.mem_cons.mp hb with rfl | hb'
      · rfl
      · exact absurd hab (hx.1 b hb')
    · rcases List.mem_cons.mp hb with rfl | hb'
      · exact absurd hab.symm (hx.1 a ha')
      · exact ih hx.2 a ha' b hb' hab

theorem insert_new_name_pairwise {plugins : List IRegisteredPlugin}
    {newE : IRegisteredPlugin}
    (hpw : plugins.Pairwise (fun a b => a.name ≠ b.name))
    (hnone : plugins.find? (fun p => p.name == newE.name) = none) :
    (plugins ++ [newE]).Pairwise (fun a b => a.name ≠ b.name) := by
  refine List.pairwise_append.mpr ⟨hpw, List.pairwise_singleton _ _, ?_⟩
  intro a ha b hb
  rcases List.mem_singleton.mp hb with rfl
  have := List.find?_eq_none.mp hnone a ha
  simpa using this

theorem replace_name_pairwise {plugins : List IRegisteredPlugin}
    {ex newE : IRegisteredPlugin}
    (hpw : plugins.Pairwise (fun a b => a.name ≠ b.name))
    (hexmem : ex ∈ plugins) (hname : ex.name = newE.name) :
    ((plugins.filter (fun p => !(p.hash == ex.hash))) ++ [newE]).Pairwise
      (fun a b => a.name ≠ b.name) := by
  refine List.pairwise_append.mpr
    ⟨List.Pairwise.filter _ hpw, List.pairwise_singleton _ _, ?_⟩
  intro a ha b hb
  rcases List.mem_singleton.mp hb with rfl
  intro heq
  have haf := List.mem_filter.mp ha
  have hane : a ≠ ex := by
    intro hcontra
    subst hcontra
    have := haf.2
    simp at this
  exact hane (pairwise_name_eq_imp hpw a haf.1 ex hexmem (heq.trans hname.symm))

theorem push_filter_name_pairwise {plugins : List IRegisteredPlugin}
    {ex newE : IRegisteredPlugin}
    (hpw : plugins.Pairwise (fun a b => a.name ≠ b.name))
    (hexfind : plugins.find? (fun p => p.name == newE.name) = some ex) :
    ((plugins ++ [newE]).filter (fun p => !(p.hash == ex.hash))).Pairwise
      (fun a b => a.name ≠ b.name) := by
  have hexmem := List.mem_of_find?_eq_some hexfind
  have hexname : ex.name = newE.name := by
    have := List.find?_some hexfind
    simpa using this
  rw [List.filter_append]
  by_cases hq : (!(newE.hash == ex.hash)) = true
  · have hone : [newE].filter (fun p => !(p.hash == ex.hash)) = [newE] := by
      simp only [List.filter_cons, hq, if_true, List.filter_nil]
    rw [hone]
    exact replace_name_pairwise hpw hexmem hexname
  · have hzero : [newE].filter (fun p => !(p.hash == ex.hash)) = [] := by
      simp only [List.filter_cons, List.filter_nil, if_neg hq]
    rw [hzero, List.append_nil]
    exact List.Pairwise.filter _ hpw

/-- C9: the registry's installed list holds at most one entry per platform
name. Both `loadPlugin` and `installPlugin` preserve pairwise-distinct
names: whenever they add an entry for a platform they remove (by hash) the
previously held entry found under that name, so starting from the empty
installed list no two installed entries ever share a name. -/
theorem registry_installed_names_unique (hostVersion : String) (st : PluginRegistryState)
    (evalOutcome : Except String IPluginInterface) (path code : String)
    (config : Option IInstallPluginConfig)
    (h : st.plugins.Pairwise (fun a b => a.name ≠ b.name)) :
    (loadPlugin hostVersion st evalOutcome path).plugins.Pairwise
      (fun a b => a.name ≠ b.name)
    ∧ (installPlugin hostVersion st code evalOutcome path config).1.plugins.Pairwise
      (fun a b => a.name ≠ b.name) := by
  constructor
  · rcases hh : st.plugins.find?
        (fun p => p.hash == (loadFromCode hostVersion evalOutcome (nanoid st.nextId) path).hash)
        with _ | q
    · rcases hname : st.plugins.find?
          (fun p => p.name == (loadFromCode hostVersion evalOutcome (nanoid st.nextId) path).name)
          with _ | ex
      · cases hstate : ((loadFromCode hostVersion evalOutcome (nanoid st.nextId) path).state
            == PluginState.mounted)
        · simp only [loadPlugin, hh, hname, hstate, Bool.false_eq_true, if_false]
          exact h
        · simp only [loadPlugin, hh, hname, hstate, if_true]
          exact insert_new_name_pairwise h hname
      · cases hstate : ((loadFromCode hostVersion evalOutcome (nanoid st.nextId) path).state
            == PluginState.mounted)
        · simp only [loadPlugin, hh, hname, hstate, Bool.false_eq_true, if_false]
          exact h
        · simp only [loadPlugin, hh, hname, hstate, if_true]
          exact push_filter_name_pairwise h hname
    · simp only [loadPlugin, hh]
      exact h
  · by_cases hcode : (code == "") = true
    · simp only [installPlugin, hcode, if_true]
      exact h
    · rcases hh : st.plugins.find?
          (fun p => p.hash == (loadFromCode hostVersion evalOutcome (nanoid st.nextId) path).hash)
          with _ | q
      · rcases hname : st.plugins.find?
            (fun p => p.name == (loadFromCode hostVersion evalOutcome (nanoid st.nextId) path).name)
            with _ | ex
        · cases hstate : ((loadFromCode hostVersion evalOutcome (nanoid st.nextId) path).state
              == PluginState.mounted)
          · simp only [installPlugin, hcode, if_false, hh, hname, hstate, Bool.false_eq_true]
            exact h
          · simp only [installPlugin, hcode, if_false, hh, hname, hstate, if_true]
            exact insert_new_name_pairwise h hname
        · by_cases hblock :
            (!((config.bind (fun c => c.notCheckVersion)).getD false)
              && !(semverCompare (ex.inst.version.getD "0.0.0")
                    ((loadFromCode hostVersion evalOutcome (nanoid st.nextId) path).inst.version.getD
                      "0.0.0") == 0)) = true
          · simp only [installPlugin, hcode, if_false, hh, hname, hblock, if_true]
            exact h
          · cases hstate : ((loadFromCode hostVersion evalOutcome (nanoid st.nextId) path).state
                == PluginState.mounted)
            · simp only [installPlugin, hcode, if_false, hh, hname, hblock, hstate,
                Bool.false_eq_true]
              exact h
            · simp only [installPlugin, hcode, if_false, hh, hname, hblock, hstate, if_true]
              exact replace_name_pairwise h (List.mem_of_find?_eq_some hname)
                (by simpa using List.find?_some hname)
      · simp only [installPlugin, hcode, if_false, hh]
        exact h

/-- Witness for C9: the empty installed list (pairwise-distinct trivially)
stays pairwise-distinct through a `loadPlugin` and an `installPlugin`. -/
theorem registry_installed_names_unique_witness :
    (loadPlugin "1.0.0" { plugins := [], builtinPlugins := [], nextId := 0 }
        (.ok { platform := "w" }) "pw").plugins.Pairwise (fun a b => a.name ≠ b.name)
    ∧ (installPlugin "1.0.0" { plugins := [], builtinPlugins := [], nextId := 0 }
        "cw" (.ok { platform := "w" }) "pw" none).1.plugins.Pairwise
      (fun a b => a.name ≠ b.name) :=
  registry_installed_names_unique "1.0.0"
    { plugins := [], builtinPlugins := [], nextId := 0 }
    (.ok { platform := "w" }) "pw" "cw" none List.Pairwise.nil

/-- `PluginRegistry.getAllPlugins`: built-ins first, then installed. -/
def getAllPlugins (st : PluginRegistryState) : List IRegisteredPlugin :=
  st.builtinPlugins ++ st.plugins

/-- `PluginRegistry.getPluginByName`. -/
def getPluginByName (st : PluginRegistryState) (name : String) :
    Option IRegisteredPlugin :=
  (getAllPlugins st).find? (fun p => p.name == name)

/-- Flip `meta.enabled` on the first entry with the given name (the JS code
mutates the object returned by `find`). -/
def setEnabledFirst : List IRegisteredPlugin → String → Bool → List IRegisteredPlugin
  | [], _, _ => []
  | p :: ps, name, e =>
    if p.name == name then
      { p with meta := { p.meta with enabled := e } } :: ps
    else
      p :: setEnabledFirst ps name e

/-- `PluginRegistry.setPluginEnabled`: look the plugin up by name; if found,
mutate its `meta.enabled`; otherwise do nothing. The lookup searches
built-ins first, matching `getPluginByName`'s enumeration order. -/
def setPluginEnabled (st : PluginRegistryState) (name : String) (enabled : Bool) :
    PluginRegistryState :=
  match getPluginByName st name with
  | none => st
  | some _ =>
    if st.builtinPlugins.any (fun p => p.name == name) then
      { st with builtinPlugins := setEnabledFirst st.builtinPlugins name enabled }
    else
      { st with plugins := setEnabledFirst st.plugins name enabled }

/-- `PluginRegistry.isPluginEnabled`: `plugin?.meta.enabled ?? false`. -/
def isPluginEnabled (st : PluginRegistryState) (name : String) : Bool :=
  match getPluginByName st name with
  | some p => p.meta.enabled
  | none => false

/-- C10: for a platform name with no registry entry (neither built-in nor
installed), `setPluginEnabled` returns without modifying any entry (and
throws nothing — it is total), and `isPluginEnabled` returns `false`. -/
theorem setPluginEnabled_unknown_name (st : PluginRegistryState) (name : String)
    (enabled : Bool) (h : ∀ p ∈ getAllPlugins st, p.name ≠ name) :
    setPluginEnabled st name enabled = st ∧ isPluginEnabled st name = false := by
  have hfind : getPluginByName st name = none := by
    unfold getPluginByName
    refine List.find?_eq_none.mpr ?_
    intro p hp
    simpa using h p hp
  constructor
  · unfold setPluginEnabled
    rw [hfind]
  · unfold isPluginEnabled
    rw [hfind]

/-- Witness for C10: a registry holding one built-in `"builtin"` and one
installed plugin `"inst"`, queried with the unknown name `"ghost"`. -/
theorem setPluginEnabled_unknown_name_witness :
    setPluginEnabled
      { plugins := [{ inst := { platform := "inst" }, state := .mounted, hash := "h2",
                      name := "inst", path := "p2",
                      meta := { enabled := true, order := 0, userVariables := [] } }],
        builtinPlugins := [{ inst := { platform := "builtin" }, state := .mounted,
                             hash := "h1", name := "builtin", path := "builtin",
                             meta := { enabled := true, order := 0, userVariables := [] } }],
        nextId := 0 } "ghost" true
      = { plugins := [{ inst := { platform := "inst" }, state := .mounted, hash := "h2",
                        name := "inst", path := "p2",
                        meta := { enabled := true, order := 0, userVariables := [] } }],
          builtinPlugins := [{ inst := { platform := "builtin" }, state := .mounted,
                               hash := "h1", name := "builtin", path := "builtin",
                               meta := { enabled := true, order := 0, userVariables := [] } }],
          nextId := 0 } ∧
    isPluginEnabled
      { plugins := [{ inst := { platform := "inst" }, state := .mounted, hash := "h2",
                      name := "inst", path := "p2",
                      meta := { enabled := true, order := 0, userVariables := [] } }],
        builtinPlugins := [{ inst := { platform := "builtin" }, state := .mounted,
                             hash := "h1", name := "builtin", path := "builtin",
                             meta := { enabled := true, order := 0, userVariables := [] } }],
        nextId := 0 } "ghost" = false :=
  setPluginEnabled_unknown_name _ "ghost" true
    (by
      intro p hp
      simp only [getAllPlugins, List.mem_append, List.mem_singleton] at hp
      rcases hp with rfl | rfl <;> decide)

/-- `PluginManager.getMediaSource` (`src/plugins/core/PluginManager.ts`):
resolve the entry by the item's `platform`; absent or disabled entries give
`null`; a present `getMediaSource` is called (a throw is caught and gives
`null`); with no `getMediaSource`, a truthy `musicItem.url` gives
`{ url: musicItem.url }`, else `null`. The source's default `quality` is
`'128k'`. -/
def managerGetMediaSource (st : PluginRegistryState) (musicItem : IMusicItemBase)
    (quality : String := "128k") : Option IMediaSourceResult :=
  match getPluginByName st musicItem.platform with
  | none => none
  | some plugin =>
    if !plugin.meta.enabled then none
    else
      match plugin.inst.getMediaSource with
      | some f =>
        match f musicItem quality with
        | .ok v => v
        | .error _ => none
      | none =>
        if jstruthy musicItem.url then some { url := musicItem.url.getD "" } else none

/-- C8: `getMediaSource` through the host. (1) No registry entry for the
item's platform: the result is `null` and no error is raised (the function
is total). (2) Entry disabled: `null`. (3) Entry enabled but the provider
implements no `getMediaSource`: fall back to `{ url: item.url }` when the
item carries a truthy embedded `url`, and `null` otherwise. -/
theorem managerGetMediaSource_resolution (st : PluginRegistryState)
    (item : IMusicItemBase) (quality : String) :
    (getPluginByName st item.platform = none →
      managerGetMediaSource st item quality = none)
    ∧ (∀ pl, getPluginByName st item.platform = some pl → pl.meta.enabled = false →
        managerGetMediaSource st item quality = none)
    ∧ (∀ pl, getPluginByName st item.platform = some pl → pl.meta.enabled = true →
        pl.inst.getMediaSource = none →
        managerGetMediaSource st item quality
          = if jstruthy item.url then some { url := item.url.getD "" } else none) := by
  refine ⟨?_, ?_, ?_⟩
  · intro h
    unfold managerGetMediaSource
    rw [h]
  · intro pl hpl hdis
    unfold managerGetMediaSource
    rw [hpl]
    simp [hdis]
  · intro pl hpl hen hnone
    unfold managerGetMediaSource
    rw [hpl]
    simp [hen, hnone]

/-- Witness for C8: one enabled plugin `"pf"` without `getMediaSource`; an
item on platform `"pf"` carrying `url = "http://x"` falls back to that url. -/
theorem managerGetMediaSource_resolution_witness :
    managerGetMediaSource
      { plugins := [{ inst := { platform := "pf" }, state := .mounted, hash := "h3",
                      name := "pf", path := "p3",
                      meta := { enabled := true, order := 0, userVariables := [] } }],
        builtinPlugins := [], nextId := 0 }
      { id := "song", platform := "pf", url := some "http://x" } "128k"
      = some { url := "http://x" } := by
  have h := (managerGetMediaSource_resolution
    { plugins := [{ inst := { platform := "pf" }, state := .mounted, hash := "h3",
                    name := "pf", path := "p3",
                    meta := { enabled := true, order := 0, userVariables := [] } }],
      builtinPlugins := [], nextId := 0 }
    { id := "song", platform := "pf", url := some "http://x" } "128k").2.2
    { inst := { platform := "pf" }, state := .mounted, hash := "h3",
      name := "pf", path := "p3",
      meta := { enabled := true, order := 0, userVariables := [] } } rfl rfl rfl
  simpa using h

/-- JS `Map.get` / keyed object read on an insertion-ordered association
list. -/
def mapGet {α : Type} : List (String × α) → String → Option α
  | [], _ => none
  | e :: es, k => if e.1 == k then some e.2 else mapGet es k

/-- JS `Map.set` / keyed object write: update the first entry with the key
in place, else append. -/
def mapSet {α : Type} : List (String × α) → String → α → List (String × α)
  | [], k, v => [(k, v)]
  | e :: es, k, v => if e.1 == k then (k, v) :: es else e :: mapSet es k v

theorem mapGet_mapSet_self {α : Type} (m : List (String × α)) (k : String) (v : α) :
    mapGet (mapSet m k v) k = some v := by
  induction m with
  | nil => simp [mapGet, mapSet]
  | cons e es ih =>
    by_cases hk : (e.1 == k) = true
    · simp [mapGet, mapSet, hk]
    · simp [mapGet, mapSet, hk, ih]

/-- The state of the legacy `PluginManager` of `src/helpers/PluginManager.ts`:
its `plugins: Map<string, ManagedPlugin>` and the `PersistStatus` durable
store (keys `'plugin_config_' + pluginId`, values the JSON-serialised
`PluginUserConfig`). -/
structure HelpersPMState where
  plugins : List (String × ManagedPlugin)
  store : List (String × PluginUserConfig)

/-- `PluginManager.setPluginUserVariable` (`src/helpers/PluginManager.ts`).
The in-memory `plugin.userConfig.userVariables[key] = value` mutation happens
first; then `savePluginConfig` awaits the durable write, whose outcome is the
`writeOk` parameter. On a failed write the returned error (`Option.some`)
propagates to the caller — the method has no `try`/`catch` and performs no
rollback, so the mutated state is returned as-is. An unknown `pluginId` only
logs and resolves normally. -/
def setPluginUserVariable (st : HelpersPMState) (writeOk : Bool)
    (pluginId key value : String) : HelpersPMState × Option String :=
  match mapGet st.plugins pluginId with
  | none => (st, none)
  | some plugin =>
    let vars := plugin.userConfig.userVariables.getD []
    let newConfig : PluginUserConfig :=
      { plugin.userConfig with userVariables := some (mapSet vars key value) }
    let plugin' : ManagedPlugin := { plugin with userConfig := newConfig }
    let st' : HelpersPMState := { st with plugins := mapSet st.plugins pluginId plugin' }
    if writeOk then
      ({ st' with store := mapSet st'.store ("plugin_config_" ++ pluginId) newConfig }, none)
    else
      (st', some "persist failed")

/-- `PluginManager.getEnvForPlugin(pluginId).getUserVariables()`:
throws for an unknown plugin, otherwise returns
`plugin.userConfig.userVariables || {}`. -/
def getEnvUserVariables (st : HelpersPMState) (pluginId : String) :
    Except String (List (String × String)) :=
  match mapGet st.plugins pluginId with
  | none => .error ("Plugin with id " ++ pluginId ++ " not found.")
  | some plugin => .ok (plugin.userConfig.userVariables.getD [])

/-- Counterexample to C7 as stated: with plugin `"p"` holding user variable
`k = "old"`, a `setPluginUserVariable` whose durable write fails does fail
(the rejection propagates), but the in-memory value is NOT rolled back: a
subsequent read returns `"new"`, not the previously-readable `"old"`. -/
theorem setPluginUserVariable_no_rollback :
    let plugin0 : ManagedPlugin :=
      { platform := "p", search := none,
        userConfig := { userVariables := some [("k", "old")], isEnabled := some true } }
    let st0 : HelpersPMState := { plugins := [("p", plugin0)], store := [] }
    let r := setPluginUserVariable st0 false "p" "k" "new"
    r.2.isSome = true ∧
    getEnvUserVariables st0 "p" = .ok [("k", "old")] ∧
    getEnvUserVariables r.1 "p" = .ok [("k", "new")] ∧
    ([("k", "new")] : List (String × String)) ≠ [("k", "old")] :=
  ⟨rfl, rfl, rfl, by decide⟩

/-- C7 (amended): if `setPluginUserVariable`'s durable write fails, the call
fails (the rejection propagates to the caller), but the in-memory value is
not rolled back: a subsequent read of the plugin's user variables returns
the map with the newly written value. -/
theorem setPluginUserVariable_failed_write (st : HelpersPMState)
    (pluginId key value : String) (plugin : ManagedPlugin)
    (hfound : mapGet st.plugins pluginId = some plugin) :
    (setPluginUserVariable st false pluginId key value).2.isSome = true ∧
    getEnvUserVariables (setPluginUserVariable st false pluginId key value).1 pluginId
      = .ok (mapSet (plugin.userConfig.userVariables.getD []) key value) := by
  refine ⟨?_, ?_⟩
  · simp only [setPluginUserVariable, hfound]
    rfl
  · simp [setPluginUserVariable, getEnvUserVariables, hfound, mapGet_mapSet_self]

/-- Witness for C7 (amended) at the concrete plugin `"p"` with `k = "old"`. -/
theorem setPluginUserVariable_failed_write_witness :
    (setPluginUserVariable ⟨[("p", ⟨"p", none, ⟨some [("k", "old")], some true⟩⟩)], []⟩
        false "p" "k" "new").2.isSome = true ∧
    getEnvUserVariables
        (setPluginUserVariable ⟨[("p", ⟨"p", none, ⟨some [("k", "old")], some true⟩⟩)], []⟩
          false "p" "k" "new").1 "p"
      = .ok [("k", "new")] := by
  have h := setPluginUserVariable_failed_write
    ⟨[("p", ⟨"p", none, ⟨some [("k", "old")], some true⟩⟩)], []⟩
    "p" "k" "new" ⟨"p", none, ⟨some [("k", "old")], some true⟩⟩ rfl
  simpa using h

end Cymusic
